import Mathlib

/-!
# Particle Field Animator — verification of the portfolio particle engine

Shallow embedding of the particle-network canvas animation in
`portofolio/js/script.js`.  The repository contains two copies of the
engine: an unguarded first engine (lines 80-135) and the main guarded
IIFE engine (lines 177-416, duplicated again later in the bundle).
JavaScript numbers are modelled as exact rationals (`ℚ`); `Math.sqrt`,
which has no exact rational counterpart, is modelled as an explicit
square-root oracle `sq : ℚ → ℚ` threaded through the functions that call
it, with exactness hypotheses (`0 ≤ d`, `d * d = dx*dx + dy*dy`,
`sq (dx*dx + dy*dy) = d`) stated where a theorem depends on the value.
Randomness (`Math.random()`) is modelled by passing the drawn values as
arguments in `[0, 1]`.
-/

namespace ParticleField

/-- A particle of the guarded engine (`createParticle`, script.js:237-246). -/
structure Particle where
  x : ℚ
  y : ℚ
  size : ℚ
  vx : ℚ
  vy : ℚ
  alpha : ℚ
deriving DecidableEq

/-- The pointer ("mouse") state singleton (script.js:202).  `x`, `y`,
`lastX`, `lastY` are nullable in the source, hence `Option ℚ`. -/
structure Mouse where
  x : Option ℚ
  y : Option ℚ
  vx : ℚ
  vy : ℚ
  lastX : Option ℚ
  lastY : Option ℚ
  active : Bool
deriving DecidableEq

/-- Initial mouse state (script.js:202): all coordinates null, inactive. -/
def initialMouse : Mouse :=
  { x := none, y := none, vx := 0, vy := 0, lastX := none, lastY := none, active := false }

/-- The configurable parameter set of the guarded engine (script.js:183-194). -/
structure Config where
  baseCount : ℚ
  connectDistance : ℚ
  maxSize : ℚ
  minSize : ℚ
  speedRange : ℚ
  lineAlpha : ℚ
  particleAlpha : ℚ
  mouseRadius : ℚ
  repel : Bool
deriving DecidableEq

/-- The literal CONFIG object of the source (script.js:183-194). -/
def CONFIG : Config :=
  { baseCount := 60
  , connectDistance := 120
  , maxSize := 2.2
  , minSize := 0.8
  , speedRange := 0.6
  , lineAlpha := 0.10
  , particleAlpha := 0.7
  , mouseRadius := 120
  , repel := true }

/-- JavaScript `d || 1` for a nonnegative number `d`: `0` is falsy, so the
expression evaluates to `1` exactly when `d = 0` (script.js:292-293). -/
def jsOrOne (d : ℚ) : ℚ := if d = 0 then 1 else d

/-- JavaScript `a || b` for numbers, used by `resize` for the
`canvas.clientWidth || window.innerWidth` fallback (script.js:212-213). -/
def jsNumOr (a b : ℚ) : ℚ := if a = 0 then b else a

/-- `Math.max(-b, Math.min(b, v))`, the per-component velocity clamp
(script.js:302-304). -/
def clampTo (b v : ℚ) : ℚ := max (-b) (min b v)

/-- `Math.round` rounds half toward positive infinity. -/
def jsRound (x : ℚ) : ℤ := ⌊x + 1 / 2⌋

/-- `rand(min, max) = Math.random() * (max - min) + min` (script.js:233-235),
with the `Math.random()` draw `r` passed explicitly. -/
def rand (r lo hi : ℚ) : ℚ := r * (hi - lo) + lo

/-- `createParticle` (script.js:237-246), with the six `Math.random()` draws
`r1 .. r6` passed explicitly (each lies in `[0, 1]`). -/
def createParticle (cfg : Config) (w h r1 r2 r3 r4 r5 r6 : ℚ) : Particle :=
  { x := r1 * w
  , y := r2 * h
  , size := rand r3 cfg.minSize cfg.maxSize
  , vx := (r4 - 0.5) * cfg.speedRange
  , vy := (r5 - 0.5) * cfg.speedRange
  , alpha := rand r6 0.4 cfg.particleAlpha }

/-- Phase 1 and 2 of `update` (script.js:275-283): integrate position by
velocity, then wrap each coordinate at the 10-unit margin.  The two `if`
statements per axis are sequential in the source, so the second test sees
the value written by the first. -/
def integrateWrap (w h : ℚ) (p : Particle) : Particle :=
  let x0 := p.x + p.vx
  let y0 := p.y + p.vy
  let x1 := if x0 < -10 then w + 10 else x0
  let x2 := if x1 > w + 10 then -10 else x1
  let y1 := if y0 < -10 then h + 10 else y0
  let y2 := if y1 > h + 10 then -10 else y1
  { p with x := x2, y := y2 }

/-- Phase 3 of `update`, the mouse-interaction branch (script.js:286-306):
guarded by `mouse.active && mouse.x !== null`; inside the influence radius
a force scaled by distance is added along `(dx, dy) / (dist || 1)` and the
velocity is clamped to `±(speedRange * 2.2)`.  A null coordinate read
despite the guard coerces to `0`, as in JavaScript arithmetic. -/
def applyMouse (sq : ℚ → ℚ) (cfg : Config) (m : Mouse) (p : Particle) : Particle :=
  if m.active && m.x.isSome then
    let mx := m.x.getD 0
    let my := m.y.getD 0
    let dx := p.x - mx
    let dy := p.y - my
    let dist := sq (dx * dx + dy * dy)
    if dist < cfg.mouseRadius then
      let force := (1 - dist / cfg.mouseRadius) * 0.6
      let dirX := dx / jsOrOne dist
      let dirY := dy / jsOrOne dist
      let vx1 := if cfg.repel then p.vx + dirX * force else p.vx - dirX * force * 0.15
      let vy1 := if cfg.repel then p.vy + dirY * force else p.vy - dirY * force * 0.15
      let vmax := cfg.speedRange * 2.2
      { p with vx := clampTo vmax vx1, vy := clampTo vmax vy1 }
    else p
  else p

/-- Phase 4 of `update` (script.js:309-310): uniform velocity damping. -/
def applyDamping (p : Particle) : Particle :=
  { p with vx := p.vx * 0.995, vy := p.vy * 0.995 }

/-- The per-particle body of `update` (script.js:271-312): integrate and
wrap, then mouse interaction, then damping. -/
def updateParticle (sq : ℚ → ℚ) (cfg : Config) (w h : ℚ) (m : Mouse) (p : Particle) : Particle :=
  applyDamping (applyMouse sq cfg m (integrateWrap w h p))

/-- `update` over the whole field: the loop mutates each particle in place
with the mouse state fixed, which is a map. -/
def updateField (sq : ℚ → ℚ) (cfg : Config) (w h : ℚ) (m : Mouse) (ps : List Particle) :
    List Particle :=
  ps.map (updateParticle sq cfg w h m)

/-- The adaptive target particle count of `resize` (script.js:218-221):
`Math.round(baseCount * Math.max(0.5, Math.min(2.2, area / refArea)))`
with `refArea = 1366 * 768`. -/
def targetCount (cfg : Config) (w h : ℚ) : ℤ :=
  let area := w * h
  let refArea : ℚ := 1366 * 768
  jsRound (cfg.baseCount * max 0.5 (min 2.2 (area / refArea)))

/-- The reconciliation step of `resize` (script.js:223-230): create `count`
particles when empty, append up to `count` when below, truncate to the
first `count` when above `count * 1.4`, otherwise leave the field alone.
`fresh` supplies the particles that `createParticle()` would return. -/
def reconcile (fresh : ℕ → Particle) (ps : List Particle) (count : ℕ) : List Particle :=
  if ps.length = 0 then (List.range count).map fresh
  else if ps.length < count then ps ++ (List.range (count - ps.length)).map fresh
  else if (count : ℚ) * 1.4 < (ps.length : ℚ) then ps.take count
  else ps

/-! ## Render model

`render` (script.js:314-340) produces only drawing commands; we record
them as data: a list of line segments, a list of circles, and an optional
mouse halo. -/

/-- A connecting line drawn by `drawLine` (script.js:260-268): endpoints
and stroke opacity. -/
structure Segment where
  x1 : ℚ
  y1 : ℚ
  x2 : ℚ
  y2 : ℚ
  alpha : ℚ
deriving DecidableEq

/-- The opacity computed by `drawLine` (script.js:261):
`Math.max(0, lineAlpha * (1 - dist / connectDistance))`. -/
def drawLineAlpha (cfg : Config) (dist : ℚ) : ℚ :=
  max 0 (cfg.lineAlpha * (1 - dist / cfg.connectDistance))

/-- One iteration of the pair loop of `render` (script.js:318-324): compute
the distance of the pair and call `drawLine` exactly when it is strictly
below `connectDistance`. -/
def renderPair (sq : ℚ → ℚ) (cfg : Config) (a b : Particle) : Option Segment :=
  let dx := a.x - b.x
  let dy := a.y - b.y
  let dist := sq (dx * dx + dy * dy)
  if dist < cfg.connectDistance then
    some { x1 := a.x, y1 := a.y, x2 := b.x, y2 := b.y, alpha := drawLineAlpha cfg dist }
  else none

/-- All ordered index pairs `i < j` of a list, in loop order
(script.js:318-319). -/
def pairs : List Particle → List (Particle × Particle)
  | [] => []
  | a :: rest => rest.map (fun b => (a, b)) ++ pairs rest

/-- The full output of one `render` call (script.js:314-340): connecting
lines for close pairs, a filled circle per particle, and, when the mouse
is active, a halo of radius `min(mouseRadius * 1.2, 240)` at the pointer. -/
structure RenderOut where
  lines : List Segment
  circles : List (ℚ × ℚ × ℚ × ℚ)
  halo : Option (ℚ × ℚ × ℚ)
deriving DecidableEq

/-- `render` (script.js:314-340) as a function from state to drawing
commands. -/
def renderField (sq : ℚ → ℚ) (cfg : Config) (m : Mouse) (ps : List Particle) : RenderOut :=
  { lines := (pairs ps).filterMap (fun ab => renderPair sq cfg ab.1 ab.2)
  , circles := ps.map (fun p => (p.x, p.y, p.size, p.alpha))
  , halo :=
      if m.active && m.x.isSome then
        some (m.x.getD 0, m.y.getD 0, min (cfg.mouseRadius * 1.2) 240)
      else none }

/-! ## Pointer event handlers -/

/-- `onMouseMove` (script.js:353-369): record the surface-local pointer
position, derive a pointer velocity from the previous position when one is
known, and mark the pointer active.  A null `lastY` read coerces to `0`. -/
def onMouseMove (rectLeft rectTop clientX clientY : ℚ) (m : Mouse) : Mouse :=
  let x := clientX - rectLeft
  let y := clientY - rectTop
  let v :=
    if m.lastX.isSome then (x - m.lastX.getD 0, y - m.lastY.getD 0)
    else (m.vx, m.vy)
  { x := some x, y := some y, vx := v.1, vy := v.2
  , lastX := some x, lastY := some y, active := true }

/-- `onMouseLeave` (script.js:370-376): deactivate the pointer and forget
all coordinates; the derived velocity fields are left as they are. -/
def onMouseLeave (m : Mouse) : Mouse :=
  { m with x := none, y := none, lastX := none, lastY := none, active := false }

/-! ## Scheduling state machine

The loop (script.js:343-349) runs `update`; `render`, then re-requests an
animation frame; the visibilitychange handler (script.js:205-209) sets
`isRunning` and, on becoming visible, calls `loop()` directly.
`pendingFrame` records whether an animation-frame callback is queued. -/

/-- The mutable state read by the loop and the event handlers. -/
structure SchedState where
  particles : List Particle
  mouse : Mouse
  w : ℚ
  h : ℚ
  isRunning : Bool
  pendingFrame : Bool

/-- The body of `loop` (script.js:344-349): bail out when not running;
otherwise update the field and request the next frame. -/
def loopBody (sq : ℚ → ℚ) (s : SchedState) : SchedState :=
  if s.isRunning then
    { s with
      particles := updateField sq CONFIG s.w s.h s.mouse s.particles,
      pendingFrame := true }
  else s

/-- The asynchronous events delivered to the engine.  A `frame` event is
the queued animation-frame callback firing; `visibility` is the
visibilitychange handler; the mouse events carry the surface-relative
inputs of the handlers.  Events that run `loop` carry the square-root
oracle used by that frame. -/
inductive Event where
  | frame (sq : ℚ → ℚ)
  | visibility (visible : Bool) (sq : ℚ → ℚ)
  | mouseMove (rectLeft rectTop clientX clientY : ℚ)
  | mouseLeave

/-- One event transition of the engine. -/
def stepEvent (s : SchedState) : Event → SchedState
  | .frame sq =>
      if s.pendingFrame then loopBody sq { s with pendingFrame := false } else s
  | .visibility v sq =>
      if v then loopBody sq { s with isRunning := true }
      else { s with isRunning := false }
  | .mouseMove rectLeft rectTop cx cy =>
      { s with mouse := onMouseMove rectLeft rectTop cx cy s.mouse }
  | .mouseLeave => { s with mouse := onMouseLeave s.mouse }

/-- Run a sequence of events. -/
def runEvents (s : SchedState) (evs : List Event) : SchedState :=
  evs.foldl stepEvent s

/-- An event that is not the resume transition (visibility becoming
visible); while paused, these are the events that can occur without
restarting the loop. -/
def nonResume : Event → Prop
  | .visibility true _ => False
  | _ => True

/-! ## Initialization of the two engines -/

/-- The layout box of the drawing-surface element. -/
structure Canvas where
  clientWidth : ℚ
  clientHeight : ℚ
deriving DecidableEq

/-- A thrown JavaScript error. -/
inductive JsError where
  | typeError : String → JsError
deriving DecidableEq

/-- First engine setup (script.js:80-81):
`const canvas = document.getElementById('particles');`
`const ctx = canvas.getContext('2d');` — when the element is absent,
`canvas` is `null` and the member access throws a TypeError, aborting the
script before `initParticles()` / `animateParticles()` (script.js:134-135)
can run. -/
def firstEngineSetup (el : Option Canvas) : Except JsError Canvas :=
  match el with
  | some c => Except.ok c
  | none => Except.error (JsError.typeError "Cannot read properties of null")

/-- `resize` (script.js:211-231) restricted to its state effect: recompute
the logical dimensions (with viewport fallback) and reconcile the particle
count toward the adaptive target. -/
def resizeField (fresh : ℕ → Particle) (c : Canvas) (innerW innerH : ℚ)
    (ps : List Particle) : ℚ × ℚ × List Particle :=
  let w := jsNumOr c.clientWidth innerW
  let h := jsNumOr c.clientHeight innerH
  (w, h, reconcile fresh ps (targetCount CONFIG w h).toNat)

/-- `init` of the guarded IIFE engine (script.js:177-179 and 403-410):
`if (!canvas) return;` makes the whole module a silent no-op when the
element is absent; otherwise `init()` resizes, binds listeners and starts
the loop. -/
def secondEngineInit (sq : ℚ → ℚ) (fresh : ℕ → Particle) (el : Option Canvas)
    (innerW innerH : ℚ) : Option SchedState :=
  match el with
  | none => none
  | some c =>
      let r := resizeField fresh c innerW innerH []
      some (loopBody sq
        { particles := r.2.2, mouse := initialMouse, w := r.1, h := r.2.1
        , isRunning := true, pendingFrame := false })

/-! ## Invariants and environment for iterated updates -/

/-- The wrap invariant: both coordinates lie within the 10-unit margin of
the surface. -/
def posBounded (w h : ℚ) (p : Particle) : Prop :=
  -10 ≤ p.x ∧ p.x ≤ w + 10 ∧ -10 ≤ p.y ∧ p.y ≤ h + 10

/-- The velocity invariant: each component is at most
`speedRange * 2.2` in absolute value. -/
def velBounded (cfg : Config) (p : Particle) : Prop :=
  |p.vx| ≤ cfg.speedRange * 2.2 ∧ |p.vy| ≤ cfg.speedRange * 2.2

/-- The inputs one `update` call reads: the square-root oracle of the
frame, the surface dimensions and the mouse state at that frame. -/
structure StepEnv where
  sq : ℚ → ℚ
  w : ℚ
  h : ℚ
  mouse : Mouse

/-- One `update` step of a single particle under a step environment. -/
def stepP (p : Particle) (e : StepEnv) : Particle :=
  updateParticle e.sq CONFIG e.w e.h e.mouse p

/-- Iterate `update` steps over a list of per-frame environments. -/
def runUpdates (es : List StepEnv) (p : Particle) : Particle :=
  es.foldl stepP p

/-! ## Helper lemmas -/

lemma applyMouse_x (sq : ℚ → ℚ) (cfg : Config) (m : Mouse) (p : Particle) :
    (applyMouse sq cfg m p).x = p.x := by
  simp only [applyMouse]
  split_ifs <;> rfl

lemma applyMouse_y (sq : ℚ → ℚ) (cfg : Config) (m : Mouse) (p : Particle) :
    (applyMouse sq cfg m p).y = p.y := by
  simp only [applyMouse]
  split_ifs <;> rfl

lemma updateParticle_x (sq : ℚ → ℚ) (cfg : Config) (w h : ℚ) (m : Mouse) (p : Particle) :
    (updateParticle sq cfg w h m p).x = (integrateWrap w h p).x := by
  simp only [updateParticle, applyDamping, applyMouse_x]

lemma updateParticle_y (sq : ℚ → ℚ) (cfg : Config) (w h : ℚ) (m : Mouse) (p : Particle) :
    (updateParticle sq cfg w h m p).y = (integrateWrap w h p).y := by
  simp only [updateParticle, applyDamping, applyMouse_y]

lemma integrateWrap_posBounded (w h : ℚ) (p : Particle) (hw : 0 ≤ w) (hh : 0 ≤ h) :
    posBounded w h (integrateWrap w h p) := by
  simp only [integrateWrap, posBounded]
  split_ifs <;>
    exact ⟨by linarith, by linarith, by linarith, by linarith⟩

lemma updateParticle_posBounded (sq : ℚ → ℚ) (cfg : Config) (w h : ℚ) (m : Mouse)
    (p : Particle) (hw : 0 ≤ w) (hh : 0 ≤ h) :
    posBounded w h (updateParticle sq cfg w h m p) := by
  have hb := integrateWrap_posBounded w h p hw hh
  simpa only [posBounded, updateParticle_x, updateParticle_y] using hb

lemma clampTo_abs_le (b v : ℚ) (hb : 0 ≤ b) : |clampTo b v| ≤ b := by
  rw [abs_le]
  constructor
  · exact le_max_left _ _
  · exact max_le (by linarith) (min_le_left _ _)

lemma clampTo_eq_self (b v : ℚ) (hv : |v| ≤ b) : clampTo b v = v := by
  rw [abs_le] at hv
  rw [clampTo, min_eq_right hv.2, max_eq_right hv.1]

lemma velBounded_applyMouse (sq : ℚ → ℚ) (m : Mouse) (p : Particle)
    (h : velBounded CONFIG p) : velBounded CONFIG (applyMouse sq CONFIG m p) := by
  simp only [applyMouse]
  split_ifs
  · exact ⟨clampTo_abs_le _ _ (by norm_num [CONFIG]), clampTo_abs_le _ _ (by norm_num [CONFIG])⟩
  · exact ⟨clampTo_abs_le _ _ (by norm_num [CONFIG]), clampTo_abs_le _ _ (by norm_num [CONFIG])⟩
  · exact h
  · exact h

lemma velBounded_applyDamping (p : Particle) (h : velBounded CONFIG p) :
    velBounded CONFIG (applyDamping p) := by
  obtain ⟨h1, h2⟩ := h
  have hb : (0 : ℚ) ≤ CONFIG.speedRange * 2.2 := by norm_num [CONFIG]
  constructor
  · calc |(applyDamping p).vx| = |p.vx| * 0.995 := by
          simp [applyDamping, abs_mul]
          norm_num
        _ ≤ CONFIG.speedRange * 2.2 := by nlinarith [abs_nonneg p.vx]
  · calc |(applyDamping p).vy| = |p.vy| * 0.995 := by
          simp [applyDamping, abs_mul]
          norm_num
        _ ≤ CONFIG.speedRange * 2.2 := by nlinarith [abs_nonneg p.vy]

lemma velBounded_integrateWrap (w h : ℚ) (p : Particle) (hv : velBounded CONFIG p) :
    velBounded CONFIG (integrateWrap w h p) := hv

lemma velBounded_step (e : StepEnv) (p : Particle) (h : velBounded CONFIG p) :
    velBounded CONFIG (stepP p e) :=
  velBounded_applyDamping _
    (velBounded_applyMouse _ _ _ (velBounded_integrateWrap _ _ _ h))

lemma velBounded_runUpdates (es : List StepEnv) (p : Particle)
    (h : velBounded CONFIG p) : velBounded CONFIG (runUpdates es p) := by
  induction es generalizing p with
  | nil => exact h
  | cons e es ih =>
      simp only [runUpdates, List.foldl_cons] at *
      exact ih _ (velBounded_step e p h)

lemma createParticle_posBounded (w h r1 r2 r3 r4 r5 r6 : ℚ)
    (hw : 0 ≤ w) (hh : 0 ≤ h) (h1 : 0 ≤ r1) (h1b : r1 ≤ 1) (h2 : 0 ≤ r2) (h2b : r2 ≤ 1) :
    posBounded w h (createParticle CONFIG w h r1 r2 r3 r4 r5 r6) := by
  simp only [createParticle, posBounded]
  refine ⟨by nlinarith, by nlinarith, by nlinarith, by nlinarith⟩

lemma createParticle_velBounded (w h r1 r2 r3 r4 r5 r6 : ℚ)
    (h4 : 0 ≤ r4) (h4b : r4 ≤ 1) (h5 : 0 ≤ r5) (h5b : r5 ≤ 1) :
    velBounded CONFIG (createParticle CONFIG w h r1 r2 r3 r4 r5 r6) := by
  simp only [createParticle, velBounded, CONFIG, abs_le]
  norm_num
  constructor <;> constructor <;> linarith

/-! ## Claim theorems -/

/-- C1: after any number (at least one) of update steps — with arbitrary
pointer activity, square-root oracles and dimension changes between them —
both position coordinates lie within `[-10, dimension + 10]` for the last
step's surface dimensions, because the update step wraps a coordinate past
the low margin to the opposite edge plus margin and symmetrically on the
high side; and a freshly created particle already starts inside the
margin. -/
theorem wrap_invariant (es : List StepEnv) (e : StepEnv) (p : Particle)
    (w h r1 r2 r3 r4 r5 r6 : ℚ)
    (hw : 0 ≤ e.w) (hh : 0 ≤ e.h)
    (hw2 : 0 ≤ w) (hh2 : 0 ≤ h)
    (h1 : 0 ≤ r1) (h1b : r1 ≤ 1) (h2 : 0 ≤ r2) (h2b : r2 ≤ 1) :
    posBounded e.w e.h (runUpdates (es ++ [e]) p) ∧
    posBounded w h (createParticle CONFIG w h r1 r2 r3 r4 r5 r6) := by
  constructor
  · simp only [runUpdates, List.foldl_append, List.foldl_cons, List.foldl_nil]
    exact updateParticle_posBounded _ _ _ _ _ _ hw hh
  · exact createParticle_posBounded w h r1 r2 r3 r4 r5 r6 hw2 hh2 h1 h1b h2 h2b

/-- C1 witness: one concrete update step on a far-out-of-range particle
lands inside the margin of a 100×80 surface, and a concretely created
particle starts inside it. -/
theorem wrap_invariant_witness :
    (0 : ℚ) ≤ (100 : ℚ) ∧ (0 : ℚ) ≤ (80 : ℚ) ∧
    (posBounded 100 80
        (runUpdates ([] ++ [⟨fun _ => 0, 100, 80, initialMouse⟩])
          { x := 5000, y := -777, size := 1, vx := 3, vy := 0, alpha := 1 }) ∧
      posBounded 100 80 (createParticle CONFIG 100 80 (1/2) (1/4) 0 1 0 (1/3))) :=
  ⟨by norm_num, by norm_num,
    wrap_invariant [] ⟨fun _ => 0, 100, 80, initialMouse⟩
      { x := 5000, y := -777, size := 1, vx := 3, vy := 0, alpha := 1 }
      100 80 (1/2) (1/4) 0 1 0 (1/3)
      (by norm_num) (by norm_num) (by norm_num) (by norm_num)
      (by norm_num) (by norm_num) (by norm_num) (by norm_num)⟩

/-- C2: a particle created by `createParticle` (with its random draws in
`[0, 1]`) has both velocity components bounded by
`speedRange * 2.2` in absolute value, and the bound is preserved by any
number of update steps under arbitrary pointer activity: the pointer
branch clamps each component to `±(speedRange * 2.2)` and outside it the
damping factor only shrinks velocity. -/
theorem velocity_clamp_invariant (w h r1 r2 r3 r4 r5 r6 : ℚ)
    (h4 : 0 ≤ r4) (h4b : r4 ≤ 1) (h5 : 0 ≤ r5) (h5b : r5 ≤ 1) (es : List StepEnv) :
    velBounded CONFIG (runUpdates es (createParticle CONFIG w h r1 r2 r3 r4 r5 r6)) :=
  velBounded_runUpdates es _
    (createParticle_velBounded w h r1 r2 r3 r4 r5 r6 h4 h4b h5 h5b)

/-- C2 witness: a concretely created particle keeps bounded velocity
through one concrete update step with an active pointer. -/
theorem velocity_clamp_invariant_witness :
    (0 : ℚ) ≤ 1 ∧ (1 : ℚ) ≤ 1 ∧ (0 : ℚ) ≤ 0 ∧ (0 : ℚ) ≤ 1 ∧
    velBounded CONFIG
      (runUpdates [⟨fun _ => 0, 100, 80,
          { x := some 50, y := some 40, vx := 0, vy := 0,
            lastX := some 50, lastY := some 40, active := true }⟩]
        (createParticle CONFIG 100 80 (1/2) (1/2) (1/2) 1 0 (1/2))) :=
  ⟨by norm_num, by norm_num, by norm_num, by norm_num,
    velocity_clamp_invariant 100 80 (1/2) (1/2) (1/2) 1 0 (1/2)
      (by norm_num) (by norm_num) (by norm_num) (by norm_num) _⟩

/-- C3: the resize reconciliation (current count `C`, target `T`) yields
`T` when `C = 0` (create), `T` when `C < T` (append), `T` when
`C > 1.4 * T` (truncate to the first `T`), and leaves the field unchanged
when `T ≤ C ≤ 1.4 * T`; concretely `C=0,T=60 → 60`, `C=50,T=60 → 60`,
`C=90,T=60 → 60`, `C=70,T=60 → 70`. -/
theorem resize_reconciliation (fresh : ℕ → Particle) (ps : List Particle)
    (count : ℕ) (pd : Particle) :
    (ps.length = 0 → (reconcile fresh ps count).length = count) ∧
    (ps.length < count → (reconcile fresh ps count).length = count) ∧
    ((count : ℚ) * 1.4 < (ps.length : ℚ) → (reconcile fresh ps count).length = count) ∧
    (count ≤ ps.length → (ps.length : ℚ) ≤ (count : ℚ) * 1.4 →
      reconcile fresh ps count = ps) ∧
    (reconcile fresh [] 60).length = 60 ∧
    (reconcile fresh (List.replicate 50 pd) 60).length = 60 ∧
    (reconcile fresh (List.replicate 90 pd) 60).length = 60 ∧
    (reconcile fresh (List.replicate 70 pd) 60).length = 70 := by
  refine ⟨?_, ?_, ?_, ?_, ?_, ?_, ?_, ?_⟩
  · intro h0
    simp [reconcile, h0]
  · intro hlt
    rcases Nat.eq_zero_or_pos ps.length with h0 | hpos
    · simp [reconcile, h0]
    · have hne : ps.length ≠ 0 := Nat.pos_iff_ne_zero.mp hpos
      simp only [reconcile, if_neg hne, if_pos hlt]
      simp [Nat.add_sub_cancel' (le_of_lt hlt)]
  · intro hgt
    have hcle : (count : ℚ) ≤ (count : ℚ) * 1.4 := by
      have : (0 : ℚ) ≤ (count : ℚ) := Nat.cast_nonneg count
      nlinarith
    have hlt : (count : ℚ) < (ps.length : ℚ) := lt_of_le_of_lt hcle hgt
    have hle : count ≤ ps.length := by exact_mod_cast le_of_lt hlt
    have hne : ps.length ≠ 0 := by
      intro h0
      rw [h0] at hgt
      norm_num at hgt
      have : (0 : ℚ) ≤ (count : ℚ) := Nat.cast_nonneg count
      linarith
    have hnlt : ¬ ps.length < count := not_lt.mpr hle
    simp only [reconcile, if_neg hne, if_neg hnlt, if_pos hgt]
    simp [List.length_take, Nat.min_eq_left hle]
  · intro hge hband
    rcases Nat.eq_zero_or_pos ps.length with h0 | hpos
    · have hc0 : count = 0 := Nat.le_zero.mp (h0 ▸ hge)
      have hnil : ps = [] := List.length_eq_zero.mp h0
      simp [reconcile, hnil, hc0]
    · have hne : ps.length ≠ 0 := Nat.pos_iff_ne_zero.mp hpos
      have hnlt : ¬ ps.length < count := not_lt.mpr hge
      have hnband : ¬ (count : ℚ) * 1.4 < (ps.length : ℚ) := not_lt.mpr hband
      simp only [reconcile, if_neg hne, if_neg hnlt, if_neg hnband]
  · simp [reconcile]
  · norm_num [reconcile]
  · norm_num [reconcile]
  · norm_num [reconcile]

/-- C3 witness: the truncation branch at `C = 90`, `T = 60`. -/
theorem resize_reconciliation_witness :
    (60 : ℚ) * 1.4 < ((List.replicate 90
        ({ x := 0, y := 0, size := 1, vx := 0, vy := 0, alpha := 1 } : Particle)).length : ℚ) ∧
    (reconcile (fun _ => { x := 0, y := 0, size := 1, vx := 0, vy := 0, alpha := 1 })
        (List.replicate 90 { x := 0, y := 0, size := 1, vx := 0, vy := 0, alpha := 1 })
        60).length = 60 :=
  ⟨by norm_num,
    (resize_reconciliation (fun _ => { x := 0, y := 0, size := 1, vx := 0, vy := 0, alpha := 1 })
        (List.replicate 90 { x := 0, y := 0, size := 1, vx := 0, vy := 0, alpha := 1 })
        60 { x := 0, y := 0, size := 1, vx := 0, vy := 0, alpha := 1 }).2.2.1
      (by norm_num)⟩

/-- The target-count formula exactly as the spec words it:
`round(baseCount * clamp(area / referenceArea, 0.5, 2.2))` with
`referenceArea = 1366 * 768`; stated as a separate definition to compare
with the source-derived `targetCount`. -/
def specClamp (lo hi x : ℚ) : ℚ := max lo (min hi x)

/-- Spec-side target count, for comparison with `targetCount`. -/
def specTargetCount (baseCount w h : ℚ) : ℤ :=
  jsRound (baseCount * specClamp 0.5 2.2 (w * h / (1366 * 768)))

/-- C4: the adaptive target count of `resize` equals
`round(baseCount * clamp(area / (1366*768), 0.5, 2.2))`; with
`baseCount = 60` it is `60` at the reference area, `30` at `0.3` times the
reference area (ratio clamped up to `0.5`), and `132` at `5` times the
reference area (ratio clamped down to `2.2`). -/
theorem target_count_formula (w h : ℚ) :
    targetCount CONFIG w h = specTargetCount 60 w h ∧
    (w * h = 1366 * 768 → targetCount CONFIG w h = 60) ∧
    (w * h = 0.3 * (1366 * 768) → targetCount CONFIG w h = 30) ∧
    (w * h = 5 * (1366 * 768) → targetCount CONFIG w h = 132) := by
  refine ⟨rfl, ?_, ?_, ?_⟩ <;> intro harea <;>
    simp only [targetCount, jsRound, CONFIG, harea] <;> norm_num

/-- C4 witness: the reference surface 1366×768 yields target count 60. -/
theorem target_count_formula_witness :
    (1366 : ℚ) * 768 = 1366 * 768 ∧ targetCount CONFIG 1366 768 = 60 :=
  ⟨rfl, (target_count_formula 1366 768).2.1 rfl⟩

/-- C5: the render pair loop draws a connecting line exactly when the
Euclidean distance `d` of the two particles (characterised by `0 ≤ d` and
`d * d = dx² + dy²`, the value the square-root oracle returns) is strictly
below `connectDistance`; the drawn line's opacity is
`lineAlpha * (1 - d / connectDistance)`, which is `0` at
`d = connectDistance` (no line drawn there) and the full `lineAlpha` at
`d = 0`. -/
theorem line_draw_predicate (sq : ℚ → ℚ) (a b : Particle) (d : ℚ)
    (h0 : 0 ≤ d)
    (hd : d * d = (a.x - b.x) * (a.x - b.x) + (a.y - b.y) * (a.y - b.y))
    (hsq : sq ((a.x - b.x) * (a.x - b.x) + (a.y - b.y) * (a.y - b.y)) = d) :
    ((renderPair sq CONFIG a b).isSome ↔ d < CONFIG.connectDistance) ∧
    (d < CONFIG.connectDistance →
      renderPair sq CONFIG a b =
        some { x1 := a.x, y1 := a.y, x2 := b.x, y2 := b.y,
               alpha := CONFIG.lineAlpha * (1 - d / CONFIG.connectDistance) }) ∧
    drawLineAlpha CONFIG CONFIG.connectDistance = 0 ∧
    drawLineAlpha CONFIG 0 = CONFIG.lineAlpha := by
  refine ⟨?_, ?_, ?_, ?_⟩
  · simp only [renderPair, hsq]
    split_ifs with hlt
    · simp [hlt]
    · simp [hlt]
  · intro hlt
    have halpha : drawLineAlpha CONFIG d =
        CONFIG.lineAlpha * (1 - d / CONFIG.connectDistance) := by
      rw [drawLineAlpha]
      refine max_eq_right ?_
      have hdiv : d / CONFIG.connectDistance < 1 := by
        rw [div_lt_one (by norm_num [CONFIG])]
        exact hlt
      simp only [CONFIG] at hdiv ⊢
      nlinarith [hdiv]
    simp only [renderPair, hsq, if_pos hlt, halpha]
  · rw [drawLineAlpha]
    norm_num [CONFIG]
  · rw [drawLineAlpha]
    norm_num [CONFIG]

/-- C5 witness: particles at `(0,0)` and `(3,4)` lie at distance `5` and
draw a line of opacity `lineAlpha * (1 - 5/120)`. -/
theorem line_draw_predicate_witness :
    (0 : ℚ) ≤ 5 ∧
    (5 : ℚ) * 5 = ((0 : ℚ) - 3) * ((0 : ℚ) - 3) + ((0 : ℚ) - 4) * ((0 : ℚ) - 4) ∧
    (((renderPair (fun _ => 5) CONFIG
          { x := 0, y := 0, size := 1, vx := 0, vy := 0, alpha := 1 }
          { x := 3, y := 4, size := 1, vx := 0, vy := 0, alpha := 1 }).isSome ↔
        (5 : ℚ) < CONFIG.connectDistance) ∧
      ((5 : ℚ) < CONFIG.connectDistance →
        renderPair (fun _ => 5) CONFIG
            { x := 0, y := 0, size := 1, vx := 0, vy := 0, alpha := 1 }
            { x := 3, y := 4, size := 1, vx := 0, vy := 0, alpha := 1 } =
          some { x1 := 0, y1 := 0, x2 := 3, y2 := 4,
                 alpha := CONFIG.lineAlpha * (1 - 5 / CONFIG.connectDistance) }) ∧
      drawLineAlpha CONFIG CONFIG.connectDistance = 0 ∧
      drawLineAlpha CONFIG 0 = CONFIG.lineAlpha) :=
  ⟨by norm_num, by norm_num,
    line_draw_predicate (fun _ => 5)
      { x := 0, y := 0, size := 1, vx := 0, vy := 0, alpha := 1 }
      { x := 3, y := 4, size := 1, vx := 0, vy := 0, alpha := 1 } 5
      (by norm_num) (by norm_num) (by norm_num)⟩

lemma integrateWrap_vx (w h : ℚ) (p : Particle) : (integrateWrap w h p).vx = p.vx := rfl

lemma integrateWrap_vy (w h : ℚ) (p : Particle) : (integrateWrap w h p).vy = p.vy := rfl

/-- Inside the influence radius with nonzero distance, the mouse branch
adds the directed force and clamps. -/
lemma applyMouse_active (sq : ℚ → ℚ) (cfg : Config) (mx my d : ℚ) (m : Mouse) (p : Particle)
    (hact : m.active = true) (hmx : m.x = some mx) (hmy : m.y = some my)
    (hsq : sq ((p.x - mx) * (p.x - mx) + (p.y - my) * (p.y - my)) = d)
    (hlt : d < cfg.mouseRadius) (hne : d ≠ 0) :
    applyMouse sq cfg m p =
      { p with
        vx := clampTo (cfg.speedRange * 2.2)
          (if cfg.repel then p.vx + (p.x - mx) / d * ((1 - d / cfg.mouseRadius) * 0.6)
           else p.vx - (p.x - mx) / d * ((1 - d / cfg.mouseRadius) * 0.6) * 0.15),
        vy := clampTo (cfg.speedRange * 2.2)
          (if cfg.repel then p.vy + (p.y - my) / d * ((1 - d / cfg.mouseRadius) * 0.6)
           else p.vy - (p.y - my) / d * ((1 - d / cfg.mouseRadius) * 0.6) * 0.15) } := by
  simp only [applyMouse, hact, hmx, hmy, Option.isSome_some, Bool.and_self, if_true,
    Option.getD_some, hsq, if_pos hlt, jsOrOne, if_neg hne]

/-- At or beyond the influence radius the mouse branch does nothing. -/
lemma applyMouse_far (sq : ℚ → ℚ) (cfg : Config) (mx my d : ℚ) (m : Mouse) (p : Particle)
    (hmx : m.x = some mx) (hmy : m.y = some my)
    (hsq : sq ((p.x - mx) * (p.x - mx) + (p.y - my) * (p.y - my)) = d)
    (hge : cfg.mouseRadius ≤ d) :
    applyMouse sq cfg m p = p := by
  simp only [applyMouse, hmx, hmy, Option.isSome_some, Option.getD_some, hsq,
    if_neg (not_lt.mpr hge)]
  split_ifs <;> rfl

/-- The attract-mode configuration: `CONFIG` with `repel` turned off
(script.js:193, the `repel: true` flag; script.js:297-300 is the attract
branch). -/
def attractConfig : Config := { CONFIG with repel := false }

/-- The pointer force as §4 of the spec words it: magnitude
`(1 - dist/radius) * 0.6` scaled linearly from full strength at distance
zero to zero at the radius edge, along the normalized direction from the
pointer to the particle — outward when repelling, inward at `0.15` of
that strength when attracting.  Stated as a separate definition to
compare with the source-derived update. -/
def specPointerForce (repel : Bool) (radius d dx dy : ℚ) : ℚ × ℚ :=
  let force := (1 - d / radius) * 0.6
  if repel then (dx / d * force, dy / d * force)
  else (-(dx / d * force * 0.15), -(dy / d * force * 0.15))

/-- C8: when the pointer is active and the particle's (integrated)
position lies at Euclidean distance `0 < d < mouseRadius` from it, the
update adds the spec's force vector (before the velocity clamp and the
damping factor of the same frame): outward at full strength in repel mode
and inward at `0.15` strength in attract mode; at or beyond the radius no
pointer force is applied and the velocity is only damped. -/
theorem pointer_force (sq : ℚ → ℚ) (w h mx my d dx dy : ℚ) (p : Particle) (m : Mouse)
    (hact : m.active = true) (hmx : m.x = some mx) (hmy : m.y = some my)
    (hdx : dx = (integrateWrap w h p).x - mx) (hdy : dy = (integrateWrap w h p).y - my)
    (hpos : 0 < d) (hd : d * d = dx * dx + dy * dy)
    (hsq : sq (dx * dx + dy * dy) = d) :
    (d < CONFIG.mouseRadius →
      ((updateParticle sq CONFIG w h m p).vx =
          clampTo (CONFIG.speedRange * 2.2)
            (p.vx + (specPointerForce true CONFIG.mouseRadius d dx dy).1) * 0.995 ∧
        (updateParticle sq CONFIG w h m p).vy =
          clampTo (CONFIG.speedRange * 2.2)
            (p.vy + (specPointerForce true CONFIG.mouseRadius d dx dy).2) * 0.995 ∧
        (updateParticle sq attractConfig w h m p).vx =
          clampTo (CONFIG.speedRange * 2.2)
            (p.vx + (specPointerForce false CONFIG.mouseRadius d dx dy).1) * 0.995 ∧
        (updateParticle sq attractConfig w h m p).vy =
          clampTo (CONFIG.speedRange * 2.2)
            (p.vy + (specPointerForce false CONFIG.mouseRadius d dx dy).2) * 0.995)) ∧
    (CONFIG.mouseRadius ≤ d →
      (updateParticle sq CONFIG w h m p).vx = p.vx * 0.995 ∧
      (updateParticle sq CONFIG w h m p).vy = p.vy * 0.995) := by
  subst hdx hdy
  constructor
  · intro hlt
    have hrep := applyMouse_active sq CONFIG mx my d m (integrateWrap w h p)
      hact hmx hmy hsq hlt (ne_of_gt hpos)
    have hatt := applyMouse_active sq attractConfig mx my d m (integrateWrap w h p)
      hact hmx hmy hsq hlt (ne_of_gt hpos)
    refine ⟨?_, ?_, ?_, ?_⟩
    · simp only [updateParticle, hrep, applyDamping, integrateWrap_vx, integrateWrap_vy,
        specPointerForce]
      norm_num [CONFIG]
    · simp only [updateParticle, hrep, applyDamping, integrateWrap_vx, integrateWrap_vy,
        specPointerForce]
      norm_num [CONFIG]
    · simp only [updateParticle, hatt, applyDamping, integrateWrap_vx, integrateWrap_vy,
        specPointerForce]
      norm_num [CONFIG, attractConfig]
      ring_nf
    · simp only [updateParticle, hatt, applyDamping, integrateWrap_vx, integrateWrap_vy,
        specPointerForce]
      norm_num [CONFIG, attractConfig]
      ring_nf
  · intro hge
    have hfar := applyMouse_far sq CONFIG mx my d m (integrateWrap w h p) hmx hmy hsq hge
    simp only [updateParticle, hfar, applyDamping, integrateWrap_vx, integrateWrap_vy]
    exact ⟨trivial, trivial⟩

/-- C8 witness: a particle whose integrated position `(3, 4)` lies at
distance `5` from an active pointer at the origin receives exactly the
spec's force in repel and attract mode, with the oracle returning
`sqrt 25 = 5`. -/
theorem pointer_force_witness :
    (0 : ℚ) < 5 ∧ (5 : ℚ) < CONFIG.mouseRadius ∧
    ((updateParticle (fun _ => 5) CONFIG 100 100
          { x := some 0, y := some 0, vx := 0, vy := 0,
            lastX := none, lastY := none, active := true }
          { x := 3, y := 4, size := 1, vx := 0, vy := 0, alpha := 1 }).vx =
        clampTo (CONFIG.speedRange * 2.2)
          (0 + (specPointerForce true CONFIG.mouseRadius 5 3 4).1) * 0.995 ∧
      (updateParticle (fun _ => 5) CONFIG 100 100
          { x := some 0, y := some 0, vx := 0, vy := 0,
            lastX := none, lastY := none, active := true }
          { x := 3, y := 4, size := 1, vx := 0, vy := 0, alpha := 1 }).vy =
        clampTo (CONFIG.speedRange * 2.2)
          (0 + (specPointerForce true CONFIG.mouseRadius 5 3 4).2) * 0.995 ∧
      (updateParticle (fun _ => 5) attractConfig 100 100
          { x := some 0, y := some 0, vx := 0, vy := 0,
            lastX := none, lastY := none, active := true }
          { x := 3, y := 4, size := 1, vx := 0, vy := 0, alpha := 1 }).vx =
        clampTo (CONFIG.speedRange * 2.2)
          (0 + (specPointerForce false CONFIG.mouseRadius 5 3 4).1) * 0.995 ∧
      (updateParticle (fun _ => 5) attractConfig 100 100
          { x := some 0, y := some 0, vx := 0, vy := 0,
            lastX := none, lastY := none, active := true }
          { x := 3, y := 4, size := 1, vx := 0, vy := 0, alpha := 1 }).vy =
        clampTo (CONFIG.speedRange * 2.2)
          (0 + (specPointerForce false CONFIG.mouseRadius 5 3 4).2) * 0.995) :=
  ⟨by norm_num, by norm_num [CONFIG],
    (pointer_force (fun _ => 5) 100 100 0 0 5 3 4
        { x := 3, y := 4, size := 1, vx := 0, vy := 0, alpha := 1 }
        { x := some 0, y := some 0, vx := 0, vy := 0,
          lastX := none, lastY := none, active := true }
        rfl rfl rfl (by norm_num [integrateWrap]) (by norm_num [integrateWrap])
        (by norm_num) (by norm_num) rfl).1 (by norm_num [CONFIG])⟩

/-- C9: when a particle lies exactly at the active pointer position after
integration, the `dist || 1` substitution makes the divisor `1`, the
direction vector is `(0, 0)`, and — for a particle whose velocity
respects the clamp invariant — the frame changes its velocity by the
`0.995` damping factor only. -/
theorem zero_distance_totality (sq : ℚ → ℚ) (w h mx my : ℚ) (p : Particle) (m : Mouse)
    (hact : m.active = true) (hmx : m.x = some mx) (hmy : m.y = some my)
    (hx : (integrateWrap w h p).x = mx) (hy : (integrateWrap w h p).y = my)
    (hsq : sq 0 = 0)
    (hvx : |p.vx| ≤ CONFIG.speedRange * 2.2) (hvy : |p.vy| ≤ CONFIG.speedRange * 2.2) :
    jsOrOne (sq 0) = 1 ∧
    ((integrateWrap w h p).x - mx) / jsOrOne (sq 0) = 0 ∧
    ((integrateWrap w h p).y - my) / jsOrOne (sq 0) = 0 ∧
    (updateParticle sq CONFIG w h m p).vx = p.vx * 0.995 ∧
    (updateParticle sq CONFIG w h m p).vy = p.vy * 0.995 := by
  have hdx0 : (integrateWrap w h p).x - mx = 0 := by rw [hx]; ring
  have hdy0 : (integrateWrap w h p).y - my = 0 := by rw [hy]; ring
  have hzero : ((integrateWrap w h p).x - mx) * ((integrateWrap w h p).x - mx) +
      ((integrateWrap w h p).y - my) * ((integrateWrap w h p).y - my) = 0 := by
    rw [hdx0, hdy0]; ring
  have hone : jsOrOne (sq 0) = 1 := by rw [hsq, jsOrOne, if_pos rfl]
  have hmain : applyMouse sq CONFIG m (integrateWrap w h p) = integrateWrap w h p := by
    simp only [applyMouse, hact, hmx, hmy, Option.isSome_some, Bool.and_self, if_true,
      Option.getD_some, hzero, hsq]
    rw [if_pos (by norm_num [CONFIG] : (0 : ℚ) < CONFIG.mouseRadius)]
    simp only [hdx0, hdy0, hone, div_one, zero_div, zero_mul, add_zero, mul_zero, sub_zero]
    simp only [ite_self, integrateWrap_vx, integrateWrap_vy,
      clampTo_eq_self _ _ hvx, clampTo_eq_self _ _ hvy]
    rfl
  refine ⟨hone, by rw [hdx0, hone]; ring, by rw [hdy0, hone]; ring, ?_, ?_⟩
  · simp only [updateParticle, hmain, applyDamping, integrateWrap_vx]
  · simp only [updateParticle, hmain, applyDamping, integrateWrap_vy]

/-- C9 witness: a motionless particle sitting exactly under the pointer at
`(7, 9)` is only damped. -/
theorem zero_distance_totality_witness :
    ((fun _ : ℚ => (0 : ℚ)) 0 = 0) ∧
    |(0 : ℚ)| ≤ CONFIG.speedRange * 2.2 ∧
    (jsOrOne ((fun _ : ℚ => (0 : ℚ)) 0) = 1 ∧
      ((integrateWrap 100 100
          { x := 7, y := 9, size := 1, vx := 0, vy := 0, alpha := 1 }).x - 7) /
        jsOrOne ((fun _ : ℚ => (0 : ℚ)) 0) = 0 ∧
      ((integrateWrap 100 100
          { x := 7, y := 9, size := 1, vx := 0, vy := 0, alpha := 1 }).y - 9) /
        jsOrOne ((fun _ : ℚ => (0 : ℚ)) 0) = 0 ∧
      (updateParticle (fun _ => 0) CONFIG 100 100
          { x := some 7, y := some 9, vx := 0, vy := 0,
            lastX := none, lastY := none, active := true }
          { x := 7, y := 9, size := 1, vx := 0, vy := 0, alpha := 1 }).vx = 0 * 0.995 ∧
      (updateParticle (fun _ => 0) CONFIG 100 100
          { x := some 7, y := some 9, vx := 0, vy := 0,
            lastX := none, lastY := none, active := true }
          { x := 7, y := 9, size := 1, vx := 0, vy := 0, alpha := 1 }).vy = 0 * 0.995) :=
  ⟨rfl, by norm_num [CONFIG],
    zero_distance_totality (fun _ => 0) 100 100 7 9
      { x := 7, y := 9, size := 1, vx := 0, vy := 0, alpha := 1 }
      { x := some 7, y := some 9, vx := 0, vy := 0,
        lastX := none, lastY := none, active := true }
      rfl rfl rfl (by norm_num [integrateWrap]) (by norm_num [integrateWrap]) rfl
      (by norm_num [CONFIG]) (by norm_num [CONFIG])⟩

/-- Whether an initialization step threw. -/
def raisesError : Except JsError Canvas → Bool
  | Except.error _ => true
  | Except.ok _ => false

/-- C6 counterexample: with the drawing-surface element absent, the first
engine's top-level setup (script.js:80-81) throws a TypeError instead of
silently declining, so initialization does raise an error. -/
theorem missing_canvas_counterexample :
    firstEngineSetup none = Except.error (JsError.typeError "Cannot read properties of null") :=
  rfl

/-- C6 (amended): with the element absent, the guarded IIFE engine
(script.js:178-179) silently declines to start — it produces no engine
state — while the unguarded first engine's setup raises an error, so
silent decline holds only for the guarded engine and is not the script's
only failure behaviour. -/
theorem missing_canvas_amended (sq : ℚ → ℚ) (fresh : ℕ → Particle) (innerW innerH : ℚ) :
    secondEngineInit sq fresh none innerW innerH = none ∧
    raisesError (firstEngineSetup none) = true :=
  ⟨rfl, rfl⟩

/-! ## C7: scheduling state machine lemmas -/

lemma loopBody_not_running (sq : ℚ → ℚ) (s : SchedState) (h : s.isRunning = false) :
    loopBody sq s = s := by
  rw [loopBody, if_neg]
  rw [h]
  simp

lemma stepEvent_paused (s : SchedState) (e : Event) (hrun : s.isRunning = false)
    (he : nonResume e) :
    (stepEvent s e).particles = s.particles ∧
    (stepEvent s e).isRunning = false ∧
    (s.pendingFrame = false → (stepEvent s e).pendingFrame = false) := by
  cases e with
  | frame sq =>
      simp only [stepEvent]
      split_ifs with hp
      · rw [loopBody_not_running sq _ (by simpa using hrun)]
        exact ⟨rfl, hrun, fun _ => rfl⟩
      · exact ⟨rfl, hrun, fun h => h⟩
  | visibility v sq =>
      cases v with
      | true => exact absurd he (by simp [nonResume])
      | false => exact ⟨rfl, rfl, fun h => h⟩
  | mouseMove rectLeft rectTop cx cy => exact ⟨rfl, hrun, fun h => h⟩
  | mouseLeave => exact ⟨rfl, hrun, fun h => h⟩

lemma runEvents_paused (s : SchedState) (evs : List Event) (hrun : s.isRunning = false)
    (hevs : ∀ e ∈ evs, nonResume e) :
    (runEvents s evs).particles = s.particles ∧
    (runEvents s evs).isRunning = false ∧
    (s.pendingFrame = false → (runEvents s evs).pendingFrame = false) := by
  induction evs generalizing s with
  | nil => exact ⟨rfl, hrun, fun h => h⟩
  | cons e evs ih =>
      have he := hevs e (List.mem_cons_self e evs)
      have hstep := stepEvent_paused s e hrun he
      have hrest := ih (stepEvent s e) hstep.2.1
        (fun e2 h2 => hevs e2 (List.mem_cons_of_mem e h2))
      simp only [runEvents, List.foldl_cons] at *
      exact ⟨hrest.1.trans hstep.1, hrest.2.1,
        fun h0 => hrest.2.2 (hstep.2.2 h0)⟩

lemma resume_runs_update (s : SchedState) (sq : ℚ → ℚ) :
    (stepEvent s (Event.visibility true sq)).particles =
      updateField sq CONFIG s.w s.h s.mouse s.particles := by
  simp [stepEvent, loopBody]

/-- C7: while paused (visibility non-visible), no sequence of frame,
pointer or further pause events changes the particle field — the loop
never reschedules itself, so no update or render step runs — and the
visible-again transition restarts the loop on the exact last particle
state: the first resumed frame is `updateField` of the paused state's
particles, with no position or velocity reset. -/
theorem pause_resume_scheduling (s : SchedState) (evs : List Event) (sq : ℚ → ℚ)
    (hrun : s.isRunning = false) (hevs : ∀ e ∈ evs, nonResume e) :
    (runEvents s evs).particles = s.particles ∧
    (runEvents s evs).isRunning = false ∧
    (s.pendingFrame = false → (runEvents s evs).pendingFrame = false) ∧
    (stepEvent (runEvents s evs) (Event.visibility true sq)).particles =
      updateField sq CONFIG (runEvents s evs).w (runEvents s evs).h
        (runEvents s evs).mouse s.particles := by
  obtain ⟨h1, h2, h3⟩ := runEvents_paused s evs hrun hevs
  refine ⟨h1, h2, h3, ?_⟩
  rw [resume_runs_update, h1]

/-- C7 witness: a paused state with one particle survives a pending frame
firing and a pointer leave, then resumes by updating that same particle. -/
theorem pause_resume_scheduling_witness :
    ({ particles := [{ x := 1, y := 2, size := 1, vx := 3, vy := 4, alpha := 1 }],
       mouse := initialMouse, w := 100, h := 80, isRunning := false,
       pendingFrame := true } : SchedState).isRunning = false ∧
    ((runEvents
        { particles := [{ x := 1, y := 2, size := 1, vx := 3, vy := 4, alpha := 1 }],
          mouse := initialMouse, w := 100, h := 80, isRunning := false,
          pendingFrame := true }
        [Event.frame (fun _ => 0), Event.mouseLeave]).particles =
      [{ x := 1, y := 2, size := 1, vx := 3, vy := 4, alpha := 1 }] ∧
    (stepEvent
        (runEvents
          { particles := [{ x := 1, y := 2, size := 1, vx := 3, vy := 4, alpha := 1 }],
            mouse := initialMouse, w := 100, h := 80, isRunning := false,
            pendingFrame := true }
          [Event.frame (fun _ => 0), Event.mouseLeave])
        (Event.visibility true (fun _ => 0))).particles =
      updateField (fun _ => 0) CONFIG
        (runEvents
          { particles := [{ x := 1, y := 2, size := 1, vx := 3, vy := 4, alpha := 1 }],
            mouse := initialMouse, w := 100, h := 80, isRunning := false,
            pendingFrame := true }
          [Event.frame (fun _ => 0), Event.mouseLeave]).w
        (runEvents
          { particles := [{ x := 1, y := 2, size := 1, vx := 3, vy := 4, alpha := 1 }],
            mouse := initialMouse, w := 100, h := 80, isRunning := false,
            pendingFrame := true }
          [Event.frame (fun _ => 0), Event.mouseLeave]).h
        (runEvents
          { particles := [{ x := 1, y := 2, size := 1, vx := 3, vy := 4, alpha := 1 }],
            mouse := initialMouse, w := 100, h := 80, isRunning := false,
            pendingFrame := true }
          [Event.frame (fun _ => 0), Event.mouseLeave]).mouse
        [{ x := 1, y := 2, size := 1, vx := 3, vy := 4, alpha := 1 }]) := by
  have hall : ∀ e ∈ [Event.frame (fun _ : ℚ => (0 : ℚ)), Event.mouseLeave], nonResume e := by
    intro e he
    rcases List.mem_cons.mp he with rfl | he2
    · exact trivial
    · rcases List.mem_cons.mp he2 with rfl | he3
      · exact trivial
      · cases he3
  have h := pause_resume_scheduling
    { particles := [{ x := 1, y := 2, size := 1, vx := 3, vy := 4, alpha := 1 }],
      mouse := initialMouse, w := 100, h := 80, isRunning := false, pendingFrame := true }
    [Event.frame (fun _ => 0), Event.mouseLeave] (fun _ => 0) rfl hall
  exact ⟨rfl, h.1, h.2.2.2⟩

/-! ## C10: non-interference of the derived pointer velocity -/

lemma applyMouse_mouse_congr (sq : ℚ → ℚ) (cfg : Config) (m1 m2 : Mouse) (p : Particle)
    (hx : m1.x = m2.x) (hy : m1.y = m2.y) (ha : m1.active = m2.active) :
    applyMouse sq cfg m1 p = applyMouse sq cfg m2 p := by
  unfold applyMouse
  rw [hx, hy, ha]

lemma updateParticle_mouse_congr (sq : ℚ → ℚ) (cfg : Config) (w h : ℚ) (m1 m2 : Mouse)
    (p : Particle) (hx : m1.x = m2.x) (hy : m1.y = m2.y) (ha : m1.active = m2.active) :
    updateParticle sq cfg w h m1 p = updateParticle sq cfg w h m2 p := by
  unfold updateParticle
  rw [applyMouse_mouse_congr sq cfg m1 m2 _ hx hy ha]

/-- C10: the derived pointer velocity (the `vx`/`vy` fields written by
`onMouseMove`) is never read by the update or render steps: two mouse
states that agree on position, last position and the active flag but
differ arbitrarily in `vx` and `vy` produce identical updated particle
fields and identical rendered output. -/
theorem pointer_velocity_noninterference (sq : ℚ → ℚ) (w h : ℚ) (m1 m2 : Mouse)
    (ps : List Particle)
    (hx : m1.x = m2.x) (hy : m1.y = m2.y) (hlx : m1.lastX = m2.lastX)
    (hly : m1.lastY = m2.lastY) (ha : m1.active = m2.active) :
    updateField sq CONFIG w h m1 ps = updateField sq CONFIG w h m2 ps ∧
    renderField sq CONFIG m1 ps = renderField sq CONFIG m2 ps := by
  constructor
  · unfold updateField
    exact List.map_congr_left
      (fun p _ => updateParticle_mouse_congr sq CONFIG w h m1 m2 p hx hy ha)
  · unfold renderField
    rw [hx, hy, ha]

/-- C10 witness: two mouse states at `(1, 2)` with derived velocities
`(5, 7)` and `(-3, 0)` give identical update and render results on a
two-particle field. -/
theorem pointer_velocity_noninterference_witness :
    ({ x := some 1, y := some 2, vx := 5, vy := 7, lastX := some 1, lastY := some 2,
       active := true } : Mouse).x =
      ({ x := some 1, y := some 2, vx := -3, vy := 0, lastX := some 1, lastY := some 2,
         active := true } : Mouse).x ∧
    (updateField (fun _ => 0) CONFIG 100 80
        { x := some 1, y := some 2, vx := 5, vy := 7, lastX := some 1, lastY := some 2,
          active := true }
        [{ x := 0, y := 0, size := 1, vx := 0, vy := 0, alpha := 1 },
         { x := 30, y := 40, size := 1, vx := 1, vy := 1, alpha := 1 }] =
      updateField (fun _ => 0) CONFIG 100 80
        { x := some 1, y := some 2, vx := -3, vy := 0, lastX := some 1, lastY := some 2,
          active := true }
        [{ x := 0, y := 0, size := 1, vx := 0, vy := 0, alpha := 1 },
         { x := 30, y := 40, size := 1, vx := 1, vy := 1, alpha := 1 }] ∧
      renderField (fun _ => 0) CONFIG
        { x := some 1, y := some 2, vx := 5, vy := 7, lastX := some 1, lastY := some 2,
          active := true }
        [{ x := 0, y := 0, size := 1, vx := 0, vy := 0, alpha := 1 },
         { x := 30, y := 40, size := 1, vx := 1, vy := 1, alpha := 1 }] =
      renderField (fun _ => 0) CONFIG
        { x := some 1, y := some 2, vx := -3, vy := 0, lastX := some 1, lastY := some 2,
          active := true }
        [{ x := 0, y := 0, size := 1, vx := 0, vy := 0, alpha := 1 },
         { x := 30, y := 40, size := 1, vx := 1, vy := 1, alpha := 1 }]) :=
  ⟨rfl,
    pointer_velocity_noninterference (fun _ => 0) 100 80
      { x := some 1, y := some 2, vx := 5, vy := 7, lastX := some 1, lastY := some 2,
        active := true }
      { x := some 1, y := some 2, vx := -3, vy := 0, lastX := some 1, lastY := some 2,
        active := true }
      [{ x := 0, y := 0, size := 1, vx := 0, vy := 0, alpha := 1 },
       { x := 30, y := 40, size := 1, vx := 1, vy := 1, alpha := 1 }]
      rfl rfl rfl rfl rfl⟩

end ParticleField
